import Mathlib

/-!
Verification of the bulk employee onboarding pipeline of the corporate
wellness portal (BulkOnboardingService in src/services/claude-ai.js, the
onboarding routes in src/routes/analytics.js, and the app_assignments
table of src/database/schema.sql).

The JavaScript service is shallowly embedded: the Redis session store,
the Bull queue and the Postgres assignment table become explicit state
values threaded through the functions; network time stamps and the
Claude AI network call are abstracted into parameters.  JavaScript
truthiness on optional strings and numbers is modelled explicitly
(undefined and the empty string are falsy; undefined and 0 are falsy
for numbers).
-/

deriving instance DecidableEq for Except

namespace CWP

/-- A normalized employee record, as produced by
BulkOnboardingService.normalizeEmployeeData: optional fields are
undefined in JavaScript when the CSV cell is missing, which is
modelled by Option. -/
structure Employee where
  email : Option String
  firstName : Option String
  lastName : Option String
  age : Option Nat
  gender : Option String
  maritalStatus : Option String
  department : Option String
  hasDependents : Bool
  includeSpouse : Bool
  spouseEmail : Option String
  healthConditions : Option (List String)
  stressLevel : Option String
deriving DecidableEq

/-- One app recommendation, the element shape produced by the AI call
and by getFallbackRecommendations. -/
structure Recommendation where
  app : String
  reason : String
  priority : String
  includeSpouse : Bool
deriving DecidableEq

/-- A valid employee as pushed by validateEmployeeData: the record plus
its 1-based CSV row index (index + 2, accounting for the header row). -/
structure ValidatedEmployee where
  employee : Employee
  rowIndex : Nat
deriving DecidableEq

/-- An invalid employee entry as pushed by validateEmployeeData. -/
structure InvalidEmployee where
  rowIndex : Nat
  employee : Employee
  errors : List String
deriving DecidableEq

/-- The value returned by validateEmployeeData.  existenceChecks is an
instrumentation counter: it counts how many times the per-record
checkExistingEmployee database query is issued during the run. -/
structure ValidationResult where
  validEmployees : List ValidatedEmployee
  invalidEmployees : List InvalidEmployee
  errors : List String
  existenceChecks : Nat
deriving DecidableEq

/-- The loop state of the for-loop inside validateEmployeeData:
the three output lists, the emailSet of already-seen addresses, and the
existence-check instrumentation counter. -/
structure ValState where
  validEmployees : List ValidatedEmployee
  invalidEmployees : List InvalidEmployee
  errors : List String
  emailSet : List String
  existenceChecks : Nat
deriving DecidableEq

/-- The tenant configuration row read by getTenantConfig; only
maxEmployees is consulted by validation.  none models an undefined or
missing column (falsy in JavaScript, like the value 0). -/
structure TenantConfig where
  maxEmployees : Option Nat
deriving DecidableEq

/-- Upload options parsed by the route (analytics.js): sendWelcomeEmails,
autoActivate, dryRun. -/
structure UploadOptions where
  sendWelcomeEmails : Bool
  autoActivate : Bool
  dryRun : Bool
deriving DecidableEq

/-- The onboarding session value stored in Redis under
onboarding:(onboardingId).  filename and fileSize are dropped from the
model; startTime and lastUpdate are wall-clock and abstracted away. -/
structure SessionData where
  tenantId : String
  status : String
  totalEmployees : Option Nat
  totalBatches : Option Nat
  error : Option String
  options : Option UploadOptions
deriving DecidableEq

/-- A job added to the Bull employee queue for one batch. -/
structure QueuedBatch where
  tenantId : String
  onboardingId : String
  batchIndex : Nat
  employees : List ValidatedEmployee
  delayMs : Nat
  attempts : Nat
  options : UploadOptions
deriving DecidableEq

/-- A batch status value stored in Redis under
batch:(onboardingId):(batchIndex).  processedCount and successCount are
absent (undefined) when the worker stored only status and error. -/
structure BatchStatusRec where
  status : String
  processedCount : Option Nat
  successCount : Option Nat
deriving DecidableEq

/-- The external state touched synchronously by the service: the Redis
session map, the Bull queue, and the Redis batch-status map. -/
structure Store where
  sessions : List (String × SessionData)
  queue : List QueuedBatch
  batchStatuses : List ((String × Nat) × BatchStatusRec)
deriving DecidableEq

/-- The synchronous response object of processCSVUpload
(processingTimeMs and estimatedCompletionTime are wall-clock and
abstracted away). -/
structure UploadResponse where
  onboardingId : String
  status : String
  totalEmployees : Nat
  totalBatches : Nat
  invalidRecords : Nat
deriving DecidableEq

/-- The aggregate returned by getOnboardingStatus: the stored session
spread together with the retrieved batch statuses and derived counts. -/
structure StatusResult where
  session : SessionData
  batchStatuses : List BatchStatusRec
  completedBatches : Nat
  totalProcessed : Nat
  totalSuccessful : Nat
deriving DecidableEq

/-- The app_config JSON written by createAppAssignment. -/
structure AppConfig where
  priority : String
  reason : String
  autoProvisioned : Bool
deriving DecidableEq

/-- A row of tenant_main.app_assignments (schema.sql).  assignedToSpouse
has database default FALSE; createAppAssignment does not set it. -/
structure AssignmentRow where
  employeeId : String
  appName : String
  accessLevel : String
  appConfig : AppConfig
  status : String
  assignedToSpouse : Bool
deriving DecidableEq

/-- JavaScript truthiness of an optional string: undefined and the
empty string are falsy. -/
def strFalsy : Option String → Bool
  | none => true
  | some s => s == ""

/-- A character admitted by the regex class that excludes whitespace
and the at-sign; JavaScript backslash-s is modelled by
Char.isWhitespace. -/
def emailAtomChar (c : Char) : Bool := !c.isWhitespace && c != '@'

/-- Split a character list on a separator character, mirroring what the
email regex does around the at-sign. -/
def splitOnChar (c : Char) : List Char → List (List Char)
  | [] => [[]]
  | x :: xs =>
    let rest := splitOnChar c xs
    if x == c then [] :: rest
    else
      match rest with
      | [] => [[x]]
      | r :: rs => (x :: r) :: rs

/-- Whether the list has a dot at a position that is neither first nor
last, i.e. the part can be decomposed as nonempty-dot-nonempty. -/
def domainHasInteriorDot (d : List Char) : Bool :=
  d.enum.any (fun p => p.2 == '.' && p.1 != 0 && p.1 + 1 != d.length)

/-- BulkOnboardingService.isValidEmail: the anchored regex
one-or-more non-ws-non-at, at-sign, one-or-more non-ws-non-at, dot,
one-or-more non-ws-non-at.  A string matches exactly when it has a
single at-sign, a nonempty local part of admitted characters, and a
domain of admitted characters containing an interior dot. -/
def isValidEmail (email : String) : Bool :=
  match splitOnChar '@' email.data with
  | [localPart, domain] =>
    !localPart.isEmpty && localPart.all emailAtomChar &&
    !domain.isEmpty && domain.all emailAtomChar &&
    domainHasInteriorDot domain
  | _ => false

/-- The email else-if chain of validateEmployeeData: returns the error
strings pushed for this record and the updated emailSet (the address is
added only when all three email checks pass). -/
def emailCheck (emailSet : List String) (email : Option String) :
    List String × List String :=
  match email with
  | none => (["Email is required"], emailSet)
  | some em =>
    if em == "" then (["Email is required"], emailSet)
    else if !isValidEmail em then (["Invalid email format"], emailSet)
    else if emailSet.contains em then (["Duplicate email address"], emailSet)
    else ([], emailSet ++ [em])

/-- The two independent name checks of validateEmployeeData. -/
def nameChecks (employee : Employee) : List String :=
  (if strFalsy employee.firstName then ["First name is required"] else []) ++
  (if strFalsy employee.lastName then ["Last name is required"] else [])

/-- The existence check of validateEmployeeData: when the email is
truthy, checkExistingEmployee is queried (one database call, counted in
the second component) and a hit pushes an error. -/
def existCheck (existingEmails : List String) (email : Option String) :
    List String × Nat :=
  if strFalsy email then ([], 0)
  else ((if existingEmails.contains (email.getD "") then ["Employee already exists"] else []), 1)

/-- The tenant capacity check of validateEmployeeData: JavaScript
evaluates tenant.maxEmployees for truthiness (undefined and 0 skip the
check) and compares the running count of already-accepted records. -/
def capacityCheck (maxEmployees : Option Nat) (validCount : Nat) : List String :=
  match maxEmployees with
  | none => []
  | some m => if m ≠ 0 ∧ m ≤ validCount then ["Exceeds tenant employee limit"] else []

/-- One iteration of the validateEmployeeData loop over (index, employee):
collects the row errors in source order (email chain, first name, last
name, existence check, capacity check) and pushes the record to the
valid or invalid list; rowIndex is index + 2 for the CSV header. -/
def validateRow (existingEmails : List String) (tenant : TenantConfig)
    (st : ValState) (ie : Nat × Employee) : ValState :=
  let emailRes := emailCheck st.emailSet ie.2.email
  let existRes := existCheck existingEmails ie.2.email
  let rowErrors := emailRes.1 ++ nameChecks ie.2 ++ existRes.1 ++
    capacityCheck tenant.maxEmployees st.validEmployees.length
  if rowErrors = [] then
    { validEmployees := st.validEmployees ++ [⟨ie.2, ie.1 + 2⟩]
      invalidEmployees := st.invalidEmployees
      errors := st.errors
      emailSet := emailRes.2
      existenceChecks := st.existenceChecks + existRes.2 }
  else
    { validEmployees := st.validEmployees
      invalidEmployees := st.invalidEmployees ++ [⟨ie.1 + 2, ie.2, rowErrors⟩]
      errors := st.errors ++
        ["Row " ++ toString (ie.1 + 2) ++ ": " ++ String.intercalate ", " rowErrors]
      emailSet := emailRes.2
      existenceChecks := st.existenceChecks + existRes.2 }

/-- BulkOnboardingService.validateEmployeeData: folds the row validator
over the enumerated roster. -/
def validateEmployeeData (employees : List Employee)
    (existingEmails : List String) (tenant : TenantConfig) : ValidationResult :=
  let st := employees.enum.foldl (validateRow existingEmails tenant) ⟨[], [], [], [], 0⟩
  ⟨st.validEmployees, st.invalidEmployees, st.errors, st.existenceChecks⟩

/-- The fixed batch size of the service (this.batchSize = 1000). -/
def batchSize : Nat := 1000

/-- The slicing loop of createBatches, written with the list length as
fuel: each iteration consumes at least one element when the size is
positive, so fuel equal to the input length never runs out.  (For
batchSize = 0 the JavaScript loop would not terminate; the service only
ever calls it with batchSize = 1000.) -/
def chunksGo (size : Nat) : Nat → List α → List (List α)
  | 0, _ => []
  | _, [] => []
  | fuel + 1, a :: as => (a :: as).take size :: chunksGo size fuel ((a :: as).drop size)

/-- BulkOnboardingService.createBatches: partitions the array into
contiguous slices of the given size. -/
def createBatches (array : List α) (size : Nat) : List (List α) :=
  if 0 < size then chunksGo size array.length array else []

/-- Overwrite-or-insert a session under its Redis key (setex semantics
of createOnboardingSession). -/
def putSession (sessions : List (String × SessionData)) (key : String)
    (data : SessionData) : List (String × SessionData) :=
  sessions.filter (fun kv => kv.1 ≠ key) ++ [(key, data)]

/-- updateOnboardingSession: merge-update the stored session when the
key exists, otherwise do nothing. -/
def setSession (sessions : List (String × SessionData)) (key : String)
    (f : SessionData → SessionData) : List (String × SessionData) :=
  sessions.map (fun kv => if kv.1 = key then (kv.1, f kv.2) else kv)

/-- BulkOnboardingService.processCSVUpload, after CSV parsing: creates
the session record, validates, and either throws when the validation
error list is nonempty (marking the session failed) or slices into
batches, queues them with staggered delays and 3 attempts, marks the
session processing, and returns the synchronous response.  The
onboardingId (built from the tenant id and the clock) is a parameter;
note that options.dryRun is never consulted, exactly as in the source. -/
def processCSVUpload (tenantId onboardingId : String) (employees : List Employee)
    (existingEmails : List String) (tenant : TenantConfig)
    (options : UploadOptions) (store : Store) :
    Except String UploadResponse × Store :=
  let store1 : Store :=
    { store with sessions := (putSession store.sessions onboardingId
        ⟨tenantId, "started", none, none, none, some options⟩) }
  let vr := validateEmployeeData employees existingEmails tenant
  if vr.errors = [] then
    let batches := createBatches vr.validEmployees batchSize
    let store2 : Store :=
      { store1 with queue := (store1.queue ++ batches.enum.map
          (fun ib => ⟨tenantId, onboardingId, ib.1, ib.2, ib.1 * 1000, 3, options⟩)) }
    let store3 : Store :=
      { store2 with sessions := (setSession store2.sessions onboardingId
          (fun s => { s with status := "processing",
                             totalEmployees := some vr.validEmployees.length,
                             totalBatches := some batches.length })) }
    (Except.ok ⟨onboardingId, "processing", vr.validEmployees.length,
       batches.length, vr.invalidEmployees.length⟩, store3)
  else
    let msg := "Validation failed: " ++ String.intercalate ", " vr.errors
    let store2 : Store :=
      { store1 with sessions := (setSession store1.sessions onboardingId
          (fun s => { s with status := "failed", error := some msg })) }
    (Except.error msg, store2)

/-- The fixed catalog of validApps in validateRecommendations. -/
def validApps : List String :=
  ["fertilitytracker", "pregnancycompanion", "postpartumsupport",
   "menowellness", "supportpartner", "myconfidant",
   "soberpal", "innerarchitect"]

/-- BulkOnboardingService.validateRecommendations: a missing or
non-array recommendations field throws; otherwise out-of-catalog
entries are filtered out and the list is capped at 3. -/
def validateRecommendations (recommendations : Option (List Recommendation)) :
    Except String (List Recommendation) :=
  match recommendations with
  | none => Except.error "Invalid recommendation format"
  | some recs => Except.ok ((recs.filter (fun r => validApps.contains r.app)).take 3)

/-- Whether the string contains the pattern as a substring, computed by
splitting (used for the includes checks on health conditions). -/
def containsSub (s pat : String) : Bool := (s.splitOn pat).length != 1

/-- Fallback rule: employee.age truthy, under 35, and married. -/
def condFertility (e : Employee) : Bool :=
  (match e.age with
   | none => false
   | some a => a != 0 && decide (a < 35)) && e.maritalStatus == some "married"

/-- Fallback rule: employee.age truthy, over 45, and female. -/
def condMenopause (e : Employee) : Bool :=
  (match e.age with
   | none => false
   | some a => a != 0 && decide (45 < a)) && e.gender == some "female"

/-- Fallback rule: department truthy and, lower-cased, one of sales,
executive, finance. -/
def condStressDept (e : Employee) : Bool :=
  match e.department with
  | none => false
  | some d => d != "" && ["sales", "executive", "finance"].contains d.toLower

/-- Fallback rule: some health condition mentions addiction or alcohol. -/
def condAddiction (e : Employee) : Bool :=
  match e.healthConditions with
  | none => false
  | some cs => cs.any (fun c => containsSub c.toLower "addiction" || containsSub c.toLower "alcohol")

/-- BulkOnboardingService.getFallbackRecommendations: the deterministic
rule table, pushed in source order and capped at 3. -/
def getFallbackRecommendations (employee : Employee) : List Recommendation :=
  let recommendations : List Recommendation := []
  let recommendations := recommendations ++
    (if condFertility employee then
      [⟨"fertilitytracker", "Young married couple - fertility planning", "high", true⟩]
     else [])
  let recommendations := recommendations ++
    (if condMenopause employee then
      [⟨"menowellness", "Perimenopausal/menopausal age range", "high", false⟩] ++
      (if employee.includeSpouse then
        [⟨"supportpartner", "Partner support during menopause transition", "medium", true⟩]
       else [])
     else [])
  let recommendations := recommendations ++
    (if condStressDept employee then
      [⟨"innerarchitect", "High-stress department - personal development", "medium", false⟩]
     else [])
  let recommendations := recommendations ++
    (if condAddiction employee then
      [⟨"soberpal", "Addiction recovery support", "high", false⟩]
     else [])
  recommendations.take 3

/-- BulkOnboardingService.getAppRecommendations: the AI call outcome is
a parameter (error models a network failure, ok carries the parsed
recommendations field, none when missing or not an array).  Any failure,
including a validateRecommendations throw, falls back to the
deterministic rules. -/
def getAppRecommendations (employee : Employee)
    (aiResponse : Except String (Option (List Recommendation))) :
    List Recommendation :=
  match aiResponse with
  | Except.error _ => getFallbackRecommendations employee
  | Except.ok resp =>
    match validateRecommendations resp with
    | Except.error _ => getFallbackRecommendations employee
    | Except.ok recs => recs

/-- BulkOnboardingService.createAppAssignment together with the
unique_employee_app UNIQUE (employee_id, app_name) constraint of
tenant_main.app_assignments (schema.sql): the INSERT has no ON CONFLICT
clause, so a second row for the same pair raises a constraint
violation; otherwise the row is inserted with access level basic,
status active, the recommendation data as app_config, and the
database-default assignedToSpouse = false. -/
def createAppAssignment (employeeId : String) (recommendation : Recommendation)
    (db : List AssignmentRow) : Except String (AssignmentRow × List AssignmentRow) :=
  if db.any (fun row => row.employeeId == employeeId && row.appName == recommendation.app) then
    Except.error "unique constraint violation: unique_employee_app"
  else
    let row : AssignmentRow :=
      ⟨employeeId, recommendation.app, "basic",
       ⟨recommendation.priority, recommendation.reason, true⟩, "active", false⟩
    Except.ok (row, db ++ [row])

/-- One iteration of the provisionAppAccess loop: the try block inserts
the assignment and pushes it; when the recommendation carries
includeSpouse and the employee has a truthy spouseEmail, the code then
calls this.createSpouseAppAssignment — a method that is defined nowhere
in the repository, so the call raises a TypeError which the surrounding
catch swallows (logged only).  Caught error messages are collected in
the third component; the employee assignment pushed before the throw
remains. -/
def provisionStep (employeeId : String) (employee : Employee)
    (acc : List AssignmentRow × List AssignmentRow × List String)
    (rec : Recommendation) : List AssignmentRow × List AssignmentRow × List String :=
  match createAppAssignment employeeId rec acc.2.1 with
  | Except.error msg => (acc.1, acc.2.1, acc.2.2 ++ [msg])
  | Except.ok (row, db) =>
    if rec.includeSpouse && !strFalsy employee.spouseEmail then
      (acc.1 ++ [row], db,
       acc.2.2 ++ ["TypeError: this.createSpouseAppAssignment is not a function"])
    else
      (acc.1 ++ [row], db, acc.2.2)

/-- BulkOnboardingService.provisionAppAccess: loops over the
recommendations, returning the pushed assignments, the final assignment
table, and the error messages caught by the per-recommendation catch. -/
def provisionAppAccess (employeeId : String) (recommendations : List Recommendation)
    (employee : Employee) (db : List AssignmentRow) :
    List AssignmentRow × List AssignmentRow × List String :=
  recommendations.foldl (provisionStep employeeId employee) ([], db, [])

/-- Number of assignment rows stored for one (employeeId, appName) pair. -/
def pairCount (db : List AssignmentRow) (employeeId appName : String) : Nat :=
  (db.filter (fun r => r.employeeId == employeeId && r.appName == appName)).length

/-- Redis session lookup of getOnboardingStatus: keyed by
onboarding:(onboardingId) alone. -/
def lookupSession (store : Store) (onboardingId : String) : Option SessionData :=
  (store.sessions.find? (fun kv => kv.1 == onboardingId)).map (fun kv => kv.2)

/-- Redis batch-status lookup: keyed by batch:(onboardingId):(index). -/
def lookupBatch (store : Store) (onboardingId : String) (i : Nat) : Option BatchStatusRec :=
  (store.batchStatuses.find? (fun kv => kv.1.1 == onboardingId && kv.1.2 == i)).map
    (fun kv => kv.2)

/-- BulkOnboardingService.getOnboardingStatus: loads the session by
onboardingId (the tenantId argument is never used), collects the stored
batch statuses for indices below sessionData.totalBatches (skipped when
that field is undefined or 0, both falsy), and derives the aggregate
counts. -/
def getOnboardingStatus (store : Store) (tenantId onboardingId : String) :
    Except String StatusResult :=
  match lookupSession store onboardingId with
  | none => Except.error "Onboarding session not found"
  | some sessionData =>
    let batchStatuses := (List.range (sessionData.totalBatches.getD 0)).filterMap
      (lookupBatch store onboardingId)
    Except.ok
      { session := sessionData
        batchStatuses := batchStatuses
        completedBatches := (batchStatuses.filter (fun b => b.status == "completed")).length
        totalProcessed := batchStatuses.foldl (fun acc b => acc + b.processedCount.getD 0) 0
        totalSuccessful := batchStatuses.foldl (fun acc b => acc + b.successCount.getD 0) 0 }

/-- The overall-status computation of GET /api/onboarding/status
(analytics.js): completed exactly when the completed-batch count equals
the session totalBatches and that is positive; a JavaScript strict
comparison against an undefined totalBatches is false. -/
def routeOverallStatus (status : StatusResult) : String :=
  match status.session.totalBatches with
  | none => status.session.status
  | some tb => if status.completedBatches = tb ∧ 0 < tb then "completed" else status.session.status

/-- Options of a plain upload (route defaults: welcome emails on,
auto-activate on, no dry run). -/
def defaultOptions : UploadOptions := ⟨true, true, false⟩

/-- Options built by POST /api/onboarding/validate: dryRun is true. -/
def dryRunOptions : UploadOptions := ⟨true, true, true⟩

/-- An empty external state. -/
def emptyStore : Store := ⟨[], [], []⟩

/-- A valid roster row. -/
def empValid1 : Employee :=
  ⟨some "a@b.cd", some "Ann", some "Ash", none, none, none, none,
   false, false, none, none, none⟩

/-- A second valid roster row with a distinct email. -/
def empValid2 : Employee :=
  ⟨some "e@f.gh", some "Bea", some "Birch", none, none, none, none,
   false, false, none, none, none⟩

/-- A third valid roster row with a distinct email. -/
def empValid3 : Employee :=
  ⟨some "i@j.kl", some "Cai", some "Cedar", none, none, none, none,
   false, false, none, none, none⟩

/-- An invalid roster row: the email cell is missing. -/
def empNoEmail : Employee :=
  ⟨none, some "Dot", some "Drew", none, none, none, none,
   false, false, none, none, none⟩

/-- The spec scenario profile: age 50, female, spouse included, spouse
email present, no department, no health conditions. -/
def scenarioEmployee : Employee :=
  ⟨some "emp@corp.example", some "Eve", some "Elm", some 50, some "female",
   some "married", none, false, true, some "spouse@mail.example", none, none⟩

/-- An employee whose spouse email is present. -/
def empWithSpouse : Employee :=
  ⟨some "p@q.rs", some "Fay", some "Fern", none, none, none, none,
   false, true, some "sp@x.yz", none, none⟩

/-- The same employee with no spouse email. -/
def empNoSpouse : Employee :=
  ⟨some "p@q.rs", some "Fay", some "Fern", none, none, none, none,
   false, true, none, none, none⟩

/-- A spouse-flagged recommendation. -/
def recSpouse : Recommendation := ⟨"supportpartner", "partner support", "medium", true⟩

/-- A plain recommendation used for the idempotence experiment. -/
def recMeno : Recommendation := ⟨"menowellness", "hormone health", "high", false⟩

/-- The assignment row produced by inserting recMeno for employee e1. -/
def rowMeno : AssignmentRow :=
  ⟨"e1", "menowellness", "basic", ⟨"high", "hormone health", true⟩, "active", false⟩

/-- The assignment row produced by inserting recSpouse for employee e1. -/
def rowSpouse : AssignmentRow :=
  ⟨"e1", "supportpartner", "basic", ⟨"medium", "partner support", true⟩, "active", false⟩

/-- A store holding one job of two batches, the first completed and the
second failed, its session still in status processing. -/
def storePartialFail : Store :=
  ⟨[("ob1", ⟨"t1", "processing", some 2, some 2, none, none⟩)], [],
   [(("ob1", 0), ⟨"completed", some 1, some 1⟩), (("ob1", 1), ⟨"failed", none, none⟩)]⟩

/-- The status aggregate getOnboardingStatus returns on storePartialFail. -/
def statusPartialFail : StatusResult :=
  ⟨⟨"t1", "processing", some 2, some 2, none, none⟩,
   [⟨"completed", some 1, some 1⟩, ⟨"failed", none, none⟩], 1, 1, 1⟩

/-! ## Helper lemmas about the batch slicer -/

lemma chunksGo_join (n : Nat) (h : 0 < n) :
    ∀ (fuel : Nat) (l : List α), l.length ≤ fuel → (chunksGo n fuel l).flatten = l := by
  intro fuel
  induction fuel with
  | zero =>
    intro l hl
    have hnil : l = [] := List.eq_nil_of_length_eq_zero (Nat.le_zero.mp hl)
    subst hnil
    rfl
  | succ f ih =>
    intro l hl
    cases l with
    | nil => rfl
    | cons a as =>
      simp only [chunksGo, List.flatten_cons]
      rw [ih (List.drop n (a :: as)) (by simp only [List.length_drop, List.length_cons] at hl ⊢; omega)]
      exact List.take_append_drop n (a :: as)

lemma chunksGo_length (n : Nat) (h : 0 < n) :
    ∀ (fuel : Nat) (l : List α), l.length ≤ fuel →
      (chunksGo n fuel l).length = (l.length + n - 1) / n := by
  intro fuel
  induction fuel with
  | zero =>
    intro l hl
    have hnil : l = [] := List.eq_nil_of_length_eq_zero (Nat.le_zero.mp hl)
    subst hnil
    simp only [chunksGo, List.length_nil]
    symm
    apply Nat.div_eq_of_lt
    omega
  | succ f ih =>
    intro l hl
    cases l with
    | nil =>
      simp only [chunksGo, List.length_nil]
      symm
      apply Nat.div_eq_of_lt
      omega
    | cons a as =>
      simp only [chunksGo, List.length_cons]
      rw [ih (List.drop n (a :: as)) (by simp only [List.length_drop, List.length_cons] at hl ⊢; omega)]
      simp only [List.length_drop, List.length_cons]
      by_cases hmn : n ≤ as.length + 1
      · have e1 : as.length + 1 - n + n - 1 = as.length := by omega
        have e2 : as.length + 1 + n - 1 = as.length + n := by omega
        rw [e1, e2, Nat.add_div_right _ h]
      · have e1 : as.length + 1 - n + n - 1 = n - 1 := by omega
        have e2 : as.length + 1 + n - 1 = as.length + n := by omega
        rw [e1, e2, Nat.add_div_right _ h, Nat.div_eq_of_lt (by omega), Nat.div_eq_of_lt (by omega)]

lemma chunksGo_get? (n : Nat) (h : 0 < n) :
    ∀ (fuel : Nat) (l : List α) (i : Nat), l.length ≤ fuel →
      i < (chunksGo n fuel l).length →
      (chunksGo n fuel l).get? i = some ((l.drop (i * n)).take n) := by
  intro fuel
  induction fuel with
  | zero =>
    intro l i hl hi
    simp [chunksGo] at hi
  | succ f ih =>
    intro l i hl hi
    cases l with
    | nil => simp [chunksGo] at hi
    | cons a as =>
      cases i with
      | zero => simp [chunksGo]
      | succ j =>
        simp only [chunksGo, List.length_cons] at hi
        simp only [chunksGo, List.get?_cons_succ]
        rw [ih (List.drop n (a :: as)) j
            (by simp only [List.length_drop, List.length_cons] at hl ⊢; omega)
            (by omega)]
        have harith : j * n + n = (j + 1) * n := by rw [Nat.succ_mul]
        rw [List.drop_drop]
        rw [Nat.add_comm, harith]

/-! ## Helper lemmas about recommendation lists -/

lemma all_of_take (p : α → Bool) (n : Nat) (l : List α) (h : l.all p = true) :
    (l.take n).all p = true := by
  rw [List.all_eq_true] at h ⊢
  intro x hx
  exact h x (List.take_subset n l hx)

lemma fallback_apps (employee : Employee) :
    (getFallbackRecommendations employee).all (fun r => validApps.contains r.app) = true := by
  simp only [getFallbackRecommendations]
  apply all_of_take
  split_ifs <;> decide

lemma fallback_length (employee : Employee) :
    (getFallbackRecommendations employee).length ≤ 3 := by
  simp only [getFallbackRecommendations]
  rw [List.length_take]
  exact Nat.min_le_left _ _

/-! ## Claim theorems -/

/-- Claim C7: for every list of valid employees and every positive batch
size, createBatches produces exactly ceil of length over batchSize
batches, each batch is the contiguous slice starting at i times the
batch size in original order, and concatenating the batches in index
order reproduces the input exactly. -/
theorem c7_createBatches_partition {α : Type} (l : List α) (n : Nat) (h : 0 < n) :
    (createBatches l n).length = (l.length + n - 1) / n ∧
    (createBatches l n).flatten = l ∧
    ∀ i, i < (createBatches l n).length →
      (createBatches l n).get? i = some ((l.drop (i * n)).take n) := by
  unfold createBatches
  rw [if_pos h]
  exact ⟨chunksGo_length n h l.length l (le_refl _),
         chunksGo_join n h l.length l (le_refl _),
         fun i hi => chunksGo_get? n h l.length l i (le_refl _) hi⟩

/-- Witness for C7 at the concrete list [1, 2, 3, 4, 5] with batch size 2. -/
theorem c7_witness :
    0 < 2 ∧
    ((createBatches [1, 2, 3, 4, 5] 2).length = ([1, 2, 3, 4, 5].length + 2 - 1) / 2 ∧
     (createBatches [1, 2, 3, 4, 5] 2).flatten = [1, 2, 3, 4, 5] ∧
     ∀ i, i < (createBatches [1, 2, 3, 4, 5] 2).length →
       (createBatches [1, 2, 3, 4, 5] 2).get? i = some (([1, 2, 3, 4, 5].drop (i * 2)).take 2)) :=
  ⟨by decide, c7_createBatches_partition [1, 2, 3, 4, 5] 2 (by decide)⟩

/-- Claim C8: for every employee profile and every outcome of the AI
call, the recommendation list handed to provisioning has length at most
3 and contains only app names from the fixed catalog: out-of-catalog
entries are filtered out of an AI response, and every failure path runs
the fallback, which only produces catalog apps. -/
theorem c8_catalog_invariant (employee : Employee)
    (aiResponse : Except String (Option (List Recommendation))) :
    (getAppRecommendations employee aiResponse).length ≤ 3 ∧
    (getAppRecommendations employee aiResponse).all (fun r => validApps.contains r.app) = true := by
  cases aiResponse with
  | error e => exact ⟨fallback_length employee, fallback_apps employee⟩
  | ok resp =>
    cases resp with
    | none => exact ⟨fallback_length employee, fallback_apps employee⟩
    | some recs =>
      simp only [getAppRecommendations, validateRecommendations]
      constructor
      · rw [List.length_take]
        exact Nat.min_le_left _ _
      · apply all_of_take
        rw [List.all_eq_true]
        intro x hx
        exact (List.mem_filter.mp hx).2

/-- Claim C9: for the scenario profile (age 50, female, spouse included,
spouse email present), a failed AI call makes getAppRecommendations
return exactly the deterministic fallback: menowellness with priority
high followed by supportpartner with priority medium and includeSpouse
true.  The second conjunct records that this failure path is exactly
the pure fallback function applied to the profile (no further calls are
modelled because the source makes none). -/
theorem c9_scenario_fallback :
    getAppRecommendations scenarioEmployee (Except.error "AI capability unreachable") =
      [⟨"menowellness", "Perimenopausal/menopausal age range", "high", false⟩,
       ⟨"supportpartner", "Partner support during menopause transition", "medium", true⟩] ∧
    getAppRecommendations scenarioEmployee (Except.error "AI capability unreachable") =
      getFallbackRecommendations scenarioEmployee :=
  ⟨by decide, rfl⟩

/-- Each loop iteration of validateEmployeeData appends to errors and
to invalidEmployees in lockstep. -/
lemma validateRow_errs_inv (ex : List String) (t : TenantConfig) (st : ValState)
    (p : Nat × Employee) (hst : st.errors.length = st.invalidEmployees.length) :
    (validateRow ex t st p).errors.length = (validateRow ex t st p).invalidEmployees.length := by
  simp only [validateRow]
  split
  · simpa using hst
  · simp [hst]

lemma foldl_errs_inv (ex : List String) (t : TenantConfig) :
    ∀ (l : List (Nat × Employee)) (st : ValState),
      st.errors.length = st.invalidEmployees.length →
      (l.foldl (validateRow ex t) st).errors.length =
        (l.foldl (validateRow ex t) st).invalidEmployees.length := by
  intro l
  induction l with
  | nil => intro st hst; simpa using hst
  | cons p ps ih =>
    intro st hst
    rw [List.foldl_cons]
    exact ih _ (validateRow_errs_inv ex t st p hst)

/-- The aggregate error list and the invalid-employee list of a
validation run always have the same length. -/
lemma validation_errs_len (employees : List Employee) (ex : List String) (t : TenantConfig) :
    (validateEmployeeData employees ex t).errors.length =
      (validateEmployeeData employees ex t).invalidEmployees.length :=
  foldl_errs_inv ex t employees.enum ⟨[], [], [], [], 0⟩ rfl

lemma validation_errors_iff (employees : List Employee) (ex : List String) (t : TenantConfig) :
    (validateEmployeeData employees ex t).errors = [] ↔
      (validateEmployeeData employees ex t).invalidEmployees = [] := by
  constructor
  · intro hh
    apply List.eq_nil_of_length_eq_zero
    rw [← validation_errs_len]
    simp [hh]
  · intro hh
    apply List.eq_nil_of_length_eq_zero
    rw [validation_errs_len]
    simp [hh]

/-- Claim C1 (amended): per-row validation errors are collected and
itemized by validateEmployeeData, but any invalid row aborts the whole
upload: processCSVUpload throws and queues nothing; the synchronous
response reporting totalEmployees, totalBatches and invalidRecords is
returned only when every row is valid, so its invalidRecords field is
always 0. -/
theorem c1_amended (tenantId onboardingId : String) (employees : List Employee)
    (existingEmails : List String) (tenant : TenantConfig) (options : UploadOptions)
    (store : Store) :
    ((validateEmployeeData employees existingEmails tenant).invalidEmployees ≠ [] →
      (∃ msg, (processCSVUpload tenantId onboardingId employees existingEmails tenant
          options store).1 = Except.error msg) ∧
      (processCSVUpload tenantId onboardingId employees existingEmails tenant
          options store).2.queue = store.queue) ∧
    ((validateEmployeeData employees existingEmails tenant).invalidEmployees = [] →
      (processCSVUpload tenantId onboardingId employees existingEmails tenant
          options store).1 =
        Except.ok ⟨onboardingId, "processing",
          (validateEmployeeData employees existingEmails tenant).validEmployees.length,
          (createBatches (validateEmployeeData employees existingEmails tenant).validEmployees
            batchSize).length, 0⟩) := by
  constructor
  · intro hinv
    have herr : ¬(validateEmployeeData employees existingEmails tenant).errors = [] :=
      fun he => hinv ((validation_errors_iff employees existingEmails tenant).mp he)
    simp only [processCSVUpload]
    rw [if_neg herr]
    exact ⟨⟨_, rfl⟩, rfl⟩
  · intro hinv
    have herr : (validateEmployeeData employees existingEmails tenant).errors = [] :=
      (validation_errors_iff employees existingEmails tenant).mpr hinv
    simp only [processCSVUpload]
    rw [if_pos herr]
    simp [hinv]

/-- Counterexample to claim C1 as stated: a roster with one valid and
one invalid row makes processCSVUpload throw (Validation failed) and
queue nothing, instead of queueing the valid row and reporting the
invalid one in a synchronous response. -/
theorem c1_counterexample :
    (processCSVUpload "t1" "ob1" [empValid1, empNoEmail] [] ⟨none⟩ defaultOptions
        emptyStore).1 = Except.error "Validation failed: Row 3: Email is required" ∧
    (processCSVUpload "t1" "ob1" [empValid1, empNoEmail] [] ⟨none⟩ defaultOptions
        emptyStore).2.queue = [] ∧
    (validateEmployeeData [empValid1, empNoEmail] [] ⟨none⟩).validEmployees.length = 1 ∧
    (validateEmployeeData [empValid1, empNoEmail] [] ⟨none⟩).invalidEmployees.length = 1 := by
  decide

/-- Witness for C1 (amended) at the same mixed roster. -/
theorem c1_witness :
    (validateEmployeeData [empValid1, empNoEmail] [] ⟨none⟩).invalidEmployees ≠ [] ∧
    ((∃ msg, (processCSVUpload "t1" "obW" [empValid1, empNoEmail] [] ⟨none⟩ defaultOptions
        emptyStore).1 = Except.error msg) ∧
     (processCSVUpload "t1" "obW" [empValid1, empNoEmail] [] ⟨none⟩ defaultOptions
        emptyStore).2.queue = emptyStore.queue) :=
  ⟨by decide,
   (c1_amended "t1" "obW" [empValid1, empNoEmail] [] ⟨none⟩ defaultOptions emptyStore).1
     (by decide)⟩

/-- Claim C2 (code bug): a dryRun upload is supposed to validate only,
but processCSVUpload never reads options.dryRun: with dryRun = true it
still creates the onboarding session record and enqueues the batch, and
returns the normal processing response. -/
theorem c2_dry_run_bug :
    dryRunOptions.dryRun = true ∧
    (processCSVUpload "tenant1" "ob1" [empValid1] [] ⟨none⟩ dryRunOptions
        emptyStore).2.sessions.length = 1 ∧
    (processCSVUpload "tenant1" "ob1" [empValid1] [] ⟨none⟩ dryRunOptions
        emptyStore).2.queue.length = 1 ∧
    (processCSVUpload "tenant1" "ob1" [empValid1] [] ⟨none⟩ dryRunOptions
        emptyStore).1 = Except.ok ⟨"ob1", "processing", 1, 1, 0⟩ := by
  decide

/-- Claim C3 (code bug): for a spouse-flagged recommendation,
provisionAppAccess creates the employee assignment, but the spouse
branch calls the undefined method createSpouseAppAssignment, whose
TypeError is swallowed by the catch: no spouse assignment exists
afterwards.  With no spouse email the branch is skipped and the
employee assignment is created without error. -/
theorem c3_spouse_bug :
    provisionAppAccess "e1" [recSpouse] empWithSpouse [] =
      ([rowSpouse], [rowSpouse],
       ["TypeError: this.createSpouseAppAssignment is not a function"]) ∧
    (provisionAppAccess "e1" [recSpouse] empWithSpouse []).2.1.all
      (fun r => !r.assignedToSpouse) = true ∧
    provisionAppAccess "e1" [recSpouse] empNoSpouse [] = ([rowSpouse], [rowSpouse], []) := by
  decide

/-- Claim C4 (amended): provisioning the same (employeeId, appName) pair
twice leaves exactly one stored row (the unique_employee_app constraint
blocks the second INSERT), but the second call raises a constraint
violation error instead of idempotently updating the config. -/
theorem c4_amended (employeeId : String) (rec rec2 : Recommendation)
    (db : List AssignmentRow) (h : pairCount db employeeId rec.app = 0)
    (h2 : rec2.app = rec.app) :
    ∃ row db1,
      createAppAssignment employeeId rec db = Except.ok (row, db1) ∧
      pairCount db1 employeeId rec.app = 1 ∧
      createAppAssignment employeeId rec2 db1 =
        Except.error "unique constraint violation: unique_employee_app" ∧
      row.appConfig = ⟨rec.priority, rec.reason, true⟩ := by
  have hfil : db.filter (fun r => r.employeeId == employeeId && r.appName == rec.app) = [] :=
    List.eq_nil_of_length_eq_zero h
  have hany : db.any (fun row => row.employeeId == employeeId && row.appName == rec.app) = false := by
    cases hh : db.any (fun row => row.employeeId == employeeId && row.appName == rec.app)
    · rfl
    · obtain ⟨x, hx, hpx⟩ := List.any_eq_true.mp hh
      have hxf : x ∈ db.filter (fun r => r.employeeId == employeeId && r.appName == rec.app) :=
        List.mem_filter.mpr ⟨hx, hpx⟩
      rw [hfil] at hxf
      cases hxf
  refine ⟨⟨employeeId, rec.app, "basic", ⟨rec.priority, rec.reason, true⟩, "active", false⟩,
    db ++ [⟨employeeId, rec.app, "basic", ⟨rec.priority, rec.reason, true⟩, "active", false⟩],
    ?_, ?_, ?_, rfl⟩
  · simp only [createAppAssignment]
    rw [if_neg (by simp [hany])]
  · simp [pairCount, List.filter_append, hfil]
  · simp only [createAppAssignment]
    rw [if_pos]
    exact List.any_eq_true.mpr
      ⟨⟨employeeId, rec.app, "basic", ⟨rec.priority, rec.reason, true⟩, "active", false⟩,
       by simp, by simp [h2]⟩

/-- Counterexample to claim C4 as stated: re-provisioning the same pair
is an error (a unique-constraint violation), not an idempotent update. -/
theorem c4_counterexample :
    createAppAssignment "e1" recMeno [] = Except.ok (rowMeno, [rowMeno]) ∧
    createAppAssignment "e1" recMeno [rowMeno] =
      Except.error "unique constraint violation: unique_employee_app" := by
  decide

/-- Witness for C4 (amended) at a concrete employee and recommendation. -/
theorem c4_witness :
    pairCount [] "e1" recMeno.app = 0 ∧
    (∃ row db1,
      createAppAssignment "e1" recMeno [] = Except.ok (row, db1) ∧
      pairCount db1 "e1" recMeno.app = 1 ∧
      createAppAssignment "e1" recMeno db1 =
        Except.error "unique constraint violation: unique_employee_app" ∧
      row.appConfig = ⟨recMeno.priority, recMeno.reason, true⟩) :=
  ⟨by decide, c4_amended "e1" recMeno recMeno [] (by decide) rfl⟩

/-- The second component of existCheck counts exactly one database call
per truthy email. -/
lemma existCheck_snd (ex : List String) (em : Option String) :
    (existCheck ex em).2 = if strFalsy em then 0 else 1 := by
  simp only [existCheck]
  cases hh : strFalsy em <;> simp [hh]

/-- Every loop iteration issues the existence check exactly when the
row email is truthy, independently of any earlier capacity exhaustion. -/
lemma validateRow_checks (ex : List String) (t : TenantConfig) (st : ValState)
    (p : Nat × Employee) :
    (validateRow ex t st p).existenceChecks =
      st.existenceChecks + (if strFalsy p.2.email then 0 else 1) := by
  simp only [validateRow]
  split <;> simp [existCheck_snd]

lemma foldl_checks (ex : List String) (t : TenantConfig) :
    ∀ (l : List (Nat × Employee)) (st : ValState),
      (l.foldl (validateRow ex t) st).existenceChecks =
        st.existenceChecks + (l.filter (fun p => !strFalsy p.2.email)).length := by
  intro l
  induction l with
  | nil => intro st; simp
  | cons p ps ih =>
    intro st
    rw [List.foldl_cons, ih, validateRow_checks]
    cases hh : strFalsy p.2.email <;> simp [List.filter_cons, hh] <;> omega

lemma enumFrom_filter_email : ∀ (k : Nat) (l : List Employee),
    ((List.enumFrom k l).filter (fun p => !strFalsy p.2.email)).length =
      (l.filter (fun e => !strFalsy e.email)).length := by
  intro k l
  induction l generalizing k with
  | nil => rfl
  | cons e es ih =>
    simp only [List.enumFrom, List.filter_cons]
    cases hh : !strFalsy e.email <;> simp [hh, ih]

/-- Claim C5 (amended): once the running count of accepted records has
reached the tenant cap, every further row is rejected with the same
capacity reason and the valid list stops growing — but the expensive
per-record existence check is still issued for every row whose email is
truthy, before and after exhaustion alike: over a whole run the check
count equals the number of truthy-email rows, with no short-circuit. -/
theorem c5_amended (ex : List String) (m : Nat) (st : ValState) (i : Nat) (e : Employee)
    (employees : List Employee) (hm : m ≠ 0) (hcap : m ≤ st.validEmployees.length) :
    (validateRow ex ⟨some m⟩ st (i, e)).validEmployees = st.validEmployees ∧
    (∃ errs, (validateRow ex ⟨some m⟩ st (i, e)).invalidEmployees =
        st.invalidEmployees ++ [⟨i + 2, e, errs⟩] ∧
      "Exceeds tenant employee limit" ∈ errs) ∧
    (validateRow ex ⟨some m⟩ st (i, e)).existenceChecks =
      st.existenceChecks + (if strFalsy e.email then 0 else 1) ∧
    (validateEmployeeData employees ex ⟨some m⟩).existenceChecks =
      (employees.filter (fun emp => !strFalsy emp.email)).length := by
  have hcapErr : capacityCheck (TenantConfig.mk (some m)).maxEmployees
      st.validEmployees.length = ["Exceeds tenant employee limit"] := by
    simp only [capacityCheck]
    rw [if_pos ⟨hm, hcap⟩]
  have hne : (emailCheck st.emailSet e.email).1 ++ nameChecks e ++
      (existCheck ex e.email).1 ++ ["Exceeds tenant employee limit"] ≠ [] := by simp
  refine ⟨?_, ?_, ?_, ?_⟩
  · simp only [validateRow, hcapErr]
    rw [if_neg hne]
  · refine ⟨(emailCheck st.emailSet e.email).1 ++ nameChecks e ++
      (existCheck ex e.email).1 ++ ["Exceeds tenant employee limit"], ?_, by simp⟩
    simp only [validateRow, hcapErr]
    rw [if_neg hne]
  · exact validateRow_checks ex ⟨some m⟩ st (i, e)
  · show (employees.enum.foldl (validateRow ex ⟨some m⟩) ⟨[], [], [], [], 0⟩).existenceChecks = _
    rw [foldl_checks]
    show 0 + ((List.enumFrom 0 employees).filter (fun p => !strFalsy p.2.email)).length = _
    rw [enumFrom_filter_email]
    omega

/-- Counterexample to claim C5 as stated: with a tenant cap of 1, rows
2 and 3 are rejected with the capacity reason, yet the existence check
still runs for all three rows (three calls, not one). -/
theorem c5_counterexample :
    (validateEmployeeData [empValid1, empValid2, empValid3] [] ⟨some 1⟩).existenceChecks = 3 ∧
    (validateEmployeeData [empValid1, empValid2, empValid3] [] ⟨some 1⟩).validEmployees.length = 1 ∧
    (validateEmployeeData [empValid1, empValid2, empValid3] [] ⟨some 1⟩).invalidEmployees.map
        (fun inv => (inv.rowIndex, inv.errors)) =
      [(3, ["Exceeds tenant employee limit"]), (4, ["Exceeds tenant employee limit"])] := by
  decide

/-- A loop state that has already accepted one employee, as reached
after the first row under a tenant cap of 1. -/
def stCapReached : ValState := ⟨[⟨empValid1, 2⟩], [], [], ["a@b.cd"], 1⟩

/-- Witness for C5 (amended) at a concrete exhausted state. -/
theorem c5_witness :
    (1 ≠ 0) ∧ 1 ≤ stCapReached.validEmployees.length ∧
    ((validateRow [] ⟨some 1⟩ stCapReached (1, empValid2)).validEmployees =
        stCapReached.validEmployees ∧
     (∃ errs, (validateRow [] ⟨some 1⟩ stCapReached (1, empValid2)).invalidEmployees =
         stCapReached.invalidEmployees ++ [⟨1 + 2, empValid2, errs⟩] ∧
       "Exceeds tenant employee limit" ∈ errs) ∧
     (validateRow [] ⟨some 1⟩ stCapReached (1, empValid2)).existenceChecks =
       stCapReached.existenceChecks + (if strFalsy empValid2.email then 0 else 1) ∧
     (validateEmployeeData [empValid1] [] ⟨some 1⟩).existenceChecks =
       ([empValid1].filter (fun emp => !strFalsy emp.email)).length) :=
  ⟨by decide, by decide,
   c5_amended [] 1 stCapReached 1 empValid2 [empValid1] (by decide) (by decide)⟩

/-- filterMap never lengthens a list. -/
lemma filterMap_length_le (f : α → Option β) :
    ∀ (l : List α), (l.filterMap f).length ≤ l.length := by
  intro l
  induction l with
  | nil => simp
  | cons a t ih =>
    rw [List.filterMap_cons]
    cases f a
    · simpa using Nat.le_trans ih (Nat.le_succ _)
    · simpa using ih

/-- A list with a member failing the predicate strictly shrinks under
filter. -/
lemma length_filter_lt {p : α → Bool} :
    ∀ {l : List α} {x : α}, x ∈ l → p x = false → (l.filter p).length < l.length := by
  intro l
  induction l with
  | nil => intro x hx; cases hx
  | cons a t ih =>
    intro x hx hpx
    rw [List.filter_cons]
    rcases List.mem_cons.mp hx with hxa | hxt
    · subst hxa
      rw [if_neg (by simp [hpx])]
      exact Nat.lt_of_le_of_lt (List.length_filter_le p t) (by simp)
    · by_cases hpa : p a = true
      · rw [if_pos hpa, List.length_cons, List.length_cons]
        exact Nat.succ_lt_succ (ih hxt hpx)
      · rw [if_neg hpa]
        exact Nat.lt_of_le_of_lt (List.length_filter_le p t) (by simp)

/-- Claim C6 (amended): when any retrieved batch of a job is failed,
the status route does not report the job completed: the reported status
stays the stored session status, because the completed-batch count then
falls short of totalBatches and only equality promotes to completed. -/
theorem c6_amended (store : Store) (tenantId onboardingId : String) (r : StatusResult)
    (hr : getOnboardingStatus store tenantId onboardingId = Except.ok r)
    (hfail : ∃ b ∈ r.batchStatuses, b.status = "failed") :
    routeOverallStatus r = r.session.status := by
  obtain ⟨b, hb, hbf⟩ := hfail
  unfold getOnboardingStatus at hr
  cases hs : lookupSession store onboardingId with
  | none => rw [hs] at hr; cases hr
  | some s =>
    rw [hs] at hr
    simp only [Except.ok.injEq] at hr
    have hsess : r.session = s := by rw [← hr]
    have hbs : r.batchStatuses =
        List.filterMap (lookupBatch store onboardingId)
          (List.range (s.totalBatches.getD 0)) := by
      rw [← hr]
    have hcb : r.completedBatches =
        ((List.filterMap (lookupBatch store onboardingId)
          (List.range (s.totalBatches.getD 0))).filter
            (fun bb => bb.status == "completed")).length := by
      rw [← hr]
    unfold routeOverallStatus
    rw [hsess]
    split
    · rfl
    · rename_i tb heq
      rw [if_neg]
      rintro ⟨hcomp, -⟩
      have hN : s.totalBatches.getD 0 = tb := by rw [heq]; rfl
      have hpb : (b.status == "completed") = false := by simp [hbf]
      rw [hbs] at hb
      have h1 := @length_filter_lt BatchStatusRec (fun bb => bb.status == "completed") _ _ hb hpb
      have h2 : (List.filterMap (lookupBatch store onboardingId)
          (List.range (s.totalBatches.getD 0))).length ≤ tb := by
        refine Nat.le_trans (filterMap_length_le _ _) ?_
        simp [hN]
      rw [hcb] at hcomp
      omega

/-- Counterexample to claim C6 as stated: a job whose two batches are
both terminal (one completed, one failed) is reported with its stored
status processing, not completed. -/
theorem c6_counterexample :
    (getOnboardingStatus storePartialFail "t1" "ob1").map
      (fun r => (r.batchStatuses.all (fun b => b.status == "completed" || b.status == "failed"),
                 r.batchStatuses.length, r.session.totalBatches, routeOverallStatus r)) =
      Except.ok (true, 2, some 2, "processing") := by
  decide

/-- Witness for C6 (amended) at the concrete partially-failed store. -/
theorem c6_witness :
    getOnboardingStatus storePartialFail "t1" "ob1" = Except.ok statusPartialFail ∧
    (∃ b ∈ statusPartialFail.batchStatuses, b.status = "failed") ∧
    routeOverallStatus statusPartialFail = statusPartialFail.session.status :=
  ⟨by decide, by decide,
   c6_amended storePartialFail "t1" "ob1" statusPartialFail (by decide) (by decide)⟩

/-- Claim C10: getOnboardingStatus never reads its tenantId argument:
sessions and batch statuses are looked up by onboardingId alone, so any
two tenant identifiers observe the identical result. -/
theorem c10_status_tenant_independent (store : Store) (t1 t2 onboardingId : String) :
    getOnboardingStatus store t1 onboardingId = getOnboardingStatus store t2 onboardingId := rfl

end CWP
